import Mathlib

/-!
Shallow embedding of the `defender_report` package (categorization,
grouping, tally, report folder derivation, department-filter validation),
with theorems checking the natural-language specification against it.

Python dates are modelled as day ordinals (`Int`); a parsed pandas
timestamp is a `Timestamp` carrying its calendar date and a time-of-day
component, and `NaT` is `Option.none`.  Pandas data frames are modelled
as lists of rows; a row is an association list from column names to cells.
The external text-to-datetime parser (`pd.to_datetime` with
`errors="coerce"`) is an explicit parameter `parse : String → Option
Timestamp`: coercion never raises, it yields `none` on malformed text.
-/

namespace DefenderReport

/-! ### Categorization (src/defender_report/categorization.py) -/

/-- A parsed datetime value: calendar date (day ordinal) plus time of day. -/
structure Timestamp where
  date : Int
  seconds : Nat
deriving DecidableEq, Repr

/-- The four compliance columns added by `categorize_dataframe`. -/
structure Assessment where
  status : String
  complianceLevel : String
  complianceSeverity : String
  complianceReason : String
deriving DecidableEq, Repr

/-- Outcome of `assess_row` when the timestamp is missing or unparseable. -/
def noCheckInAssessment : Assessment :=
  ⟨"OutOfDate", "Critical", "critical", "No check-in date"⟩

/-- Outcome of `assess_row` when the date is on or after the cutoff. -/
def upToDateAssessment : Assessment :=
  ⟨"UpToDate", "Fully Compliant", "ok", "Device is up to date"⟩

/-- Outcome of `assess_row` when the date is strictly before the cutoff. -/
def missedWindowAssessment : Assessment :=
  ⟨"OutOfDate", "Not Compliant", "critical", "Missed check-in window"⟩

/-- Embeds the inner `assess_row` of `categorize_dataframe`: `pd.isna` is
the `none` case, and the comparison `last_reported.date() >= cutoff_date`
uses the calendar date only. -/
def assess_row (cutoff_date : Int) : Option Timestamp → Assessment
  | none => noCheckInAssessment
  | some t => if cutoff_date ≤ t.date then upToDateAssessment else missedWindowAssessment

/-- A data-frame cell: raw text, or a parsed datetime (with `dt none` = NaT). -/
inductive Cell where
  | str (s : String)
  | dt (d : Option Timestamp)
deriving DecidableEq, Repr

/-- A data-frame row: association list from column name to cell. -/
abbrev Row := List (String × Cell)

/-- First value bound to a column name in a row (pandas column read). -/
def rowGet : Row → String → Option Cell
  | [], _ => none
  | (k, v) :: rest, key => if k = key then some v else rowGet rest key

/-- Column assignment: replace the first binding in place (keeping its
position), or append the new column at the end, as pandas does. -/
def setCol : Row → String → Cell → Row
  | [], key, v => [(key, v)]
  | (k, w) :: rest, key, v =>
      if k = key then (key, v) :: rest else (k, w) :: setCol rest key v

/-- Embeds `pd.to_datetime(_, errors="coerce")` on one cell: text goes
through the parser (malformed text becomes NaT, never an exception);
an already-parsed cell is kept. -/
def to_datetime (parse : String → Option Timestamp) : Cell → Cell
  | .str s => .dt (parse s)
  | .dt d => .dt d

/-- Extracts the datetime payload of a parsed cell (`pd.isna` sees NaT as
missing; a non-datetime cell never occurs after the re-parse). -/
def dtValue : Cell → Option Timestamp
  | .dt d => d
  | .str _ => none

/-- Re-parsed `LastReportedDateTime` cell of a row: a present cell goes
through `pd.to_datetime(_, errors="coerce")`; a missing column falls back
to the scalar `""`, which coerces to NaT. -/
def parsed_last_reported (parse : String → Option Timestamp) (row : Row) : Cell :=
  match rowGet row "LastReportedDateTime" with
  | some c => to_datetime parse c
  | none => .dt none

/-- The assessment `categorize_dataframe` computes for one row, applied to
the re-parsed timestamp column. -/
def row_assessment (parse : String → Option Timestamp) (cutoff_date : Int) (row : Row) :
    Assessment :=
  assess_row cutoff_date (dtValue (parsed_last_reported parse row))

/-- Per-row body of `categorize_dataframe`: re-parse `LastReportedDateTime`
in place, then write the four assessment columns in order. -/
def categorize_row (parse : String → Option Timestamp) (cutoff_date : Int) (row : Row) : Row :=
  setCol (setCol (setCol (setCol
    (setCol row "LastReportedDateTime" (parsed_last_reported parse row))
    "Status" (.str (row_assessment parse cutoff_date row).status))
    "ComplianceLevel" (.str (row_assessment parse cutoff_date row).complianceLevel))
    "ComplianceSeverity" (.str (row_assessment parse cutoff_date row).complianceSeverity))
    "ComplianceReason" (.str (row_assessment parse cutoff_date row).complianceReason)

/-- Embeds `categorize_dataframe`: works on a copy of the frame
(`data_frame.copy()`; in this pure embedding the input list is simply not
part of the output), with `cutoff_date = reference_date - threshold_days`. -/
def categorize_dataframe (parse : String → Option Timestamp)
    (reference_date threshold_days : Int) (rows : List Row) : List Row :=
  rows.map (categorize_row parse (reference_date - threshold_days))

/-! ### Tally (src/defender_report/categorization.py, tally_dataframe) -/

/-- One row as read by `tally_dataframe`: `deviceName` is the value after
`astype(str)`, `managedBy` is the `_ManagedBy` cell with `none` for NaN
(an absent column behaves like all-NaN: every management count is 0 either
way), `status` is the `Status` cell. -/
structure TallyRow where
  deviceName : String
  managedBy : Option String
  status : String
deriving DecidableEq, Repr

/-- The dictionary returned by `tally_dataframe`. -/
structure DeptSummary where
  deviceCount : Nat
  coManaged : Nat
  intuneCount : Nat
  sccmManaged : Int
  upToDate : Nat
  outOfDate : Nat
  compliance : ℚ
deriving DecidableEq, Repr

/-- Embeds Python `str.lower()` (ASCII case folding, character by
character; every string the program compares is ASCII). -/
def py_lower (s : String) : String :=
  String.mk (s.toList.map Char.toLower)

/-- Embeds Python `str.upper()`. -/
def py_upper (s : String) : String :=
  String.mk (s.toList.map Char.toUpper)

/-- Embeds Python `str.strip()`: whitespace removed from both ends. -/
def py_strip (s : String) : String :=
  String.mk
    (((s.toList.dropWhile Char.isWhitespace).reverse.dropWhile Char.isWhitespace).reverse)

/-- Checks that `needle` is an initial segment of `hay` (character lists). -/
def charsLeadWith : List Char → List Char → Bool
  | [], _ => true
  | _ :: _, [] => false
  | a :: as, b :: bs => a == b && charsLeadWith as bs

/-- Checks that `needle` occurs contiguously inside `hay` (character lists). -/
def charsContain (needle : List Char) : List Char → Bool
  | [] => needle.isEmpty
  | b :: bs => charsLeadWith needle (b :: bs) || charsContain needle bs

/-- Substring containment on strings (`pandas.Series.str.contains` with a
literal pattern). -/
def containsSubstring (hay needle : String) : Bool :=
  charsContain needle.toList hay.toList

/-- Embeds `fillna("").str.lower().str.strip()` on one `_ManagedBy` value. -/
def managed_norm (m : Option String) : String :=
  py_strip (py_lower (m.getD ""))

/-- Row matches the regex `co-managed|comanaged` after normalization. -/
def is_co_managed (m : Option String) : Bool :=
  containsSubstring (managed_norm m) "co-managed" || containsSubstring (managed_norm m) "comanaged"

/-- Row contains `intune` after normalization. -/
def is_intune (m : Option String) : Bool :=
  containsSubstring (managed_norm m) "intune"

/-- The valid-row mask: `DeviceName.astype(str).str.strip() != ""`. -/
def valid_row (r : TallyRow) : Bool :=
  py_strip r.deviceName ≠ ""

/-- Embeds `tally_dataframe`.  Note which sums range over which rows: the
device count and the two status counts are taken over the valid-row mask,
while the two management-method counts are taken over the whole frame, as
in the source. -/
def tally_dataframe (rows : List TallyRow) : DeptSummary :=
  let device := rows.countP valid_row
  let co := rows.countP (fun r => is_co_managed r.managedBy)
  let intune := rows.countP (fun r => is_intune r.managedBy)
  let up := rows.countP (fun r => valid_row r && r.status == "UpToDate")
  let out := rows.countP (fun r => valid_row r && r.status == "OutOfDate")
  { deviceCount := device
    coManaged := co
    intuneCount := intune
    sccmManaged := (device : Int) - co - intune
    upToDate := up
    outOfDate := out
    compliance := if device = 0 then 0 else (up : ℚ) / (device : ℚ) }

/-! ### Grouping (src/defender_report/grouping.py) -/

/-- Official department code to canonical (sheet) name mapping, verbatim
from the source. -/
def DEPARTMENT_CODE_TO_SHEET : List (String × String) :=
  [("GPEDU", "gpedu"),
   ("GPHEALTH", "gphealth"),
   ("GPGDED", "gpgded"),
   ("GDSD", "gdsd"),
   ("GPSPORTS", "gpsports"),
   ("GDARD", "gdard"),
   ("GPT", "gpt"),
   ("GPDRT", "gpdrt"),
   ("GPEGOV", "gpegov"),
   ("GPDID", "gpdid"),
   ("GDHUS", "gdhus"),
   ("GPDPR", "gpdpr"),
   ("GPSAS", "gpsas"),
   ("COGTA", "cogta"),
   ("GIFA", "gifa")]

/-- Text variant to official code mapping, verbatim from the source. -/
def VARIANT_TO_CODE : List (String × String) :=
  [("gpdrt - k", "GPDRT"),
   ("gdrt", "GPDRT"),
   ("(DLTC)", "GPDRT"),
   ("(GFLEET)", "GPDRT"),
   ("(GPDTR)", "GPDRT"),
   ("(GPDRT", "GPDRT"),
   ("(GPDRT))", "GPDRT"),
   ("(GPDRT-K)", "GPDRT"),
   ("gp health", "GPHEALTH"),
   ("(GPHEALTH))", "GPHEALTH"),
   ("(GPHEALTH", "GPHEALTH"),
   ("(GPHEALTH0", "GPHEALTH"),
   ("(gpghealth)", "GPHEALTH"),
   ("(gphealth", "GPHEALTH"),
   ("(gphealth0", "GPHEALTH"),
   ("Gphealth)", "GPHEALTH"),
   ("(GPHealth", "GPHEALTH"),
   ("(GPHeallth)", "GPHEALTH"),
   ("(GPHealth\x7d", "GPHEALTH"),
   ("(GpHealth", "GPHEALTH"),
   ("bgh", "GPHEALTH"),
   ("(GHealth)", "GPHEALTH"),
   ("(GPHEALH)", "GPHEALTH"),
   ("(GPGEALTH)", "GPHEALTH"),
   ("(gphiealth)", "GPHEALTH"),
   ("egov", "GPEGOV"),
   ("EGOV", "GPEGOV"),
   ("DID", "GPDID"),
   ("(DID))", "GPDID"),
   ("(GDID)", "GPDID"),
   ("GPEDU)", "GPEDU"),
   ("(GPEDU))", "GPEDU"),
   ("(GDE)", "GPEDU"),
   ("(GDEDU)", "GPEDU"),
   ("(GDEDU)2", "GPEDU"),
   ("(GPEDU)1", "GPEDU"),
   ("[GPEDU]", "GPEDU"),
   ("(GPED)", "GPEDU"),
   ("(MC)", "GPEDU"),
   ("(PEDU)", "GPEDU"),
   ("(GDACE)", "GDARD"),
   ("(GDARDE)", "GDARD"),
   ("(GDARD", "GDARD"),
   ("(GDEnv)", "GDARD"),
   ("(GPDED)", "GPGDED"),
   ("(GPGDED", "GPGDED"),
   ("GPGDED", "GPGDED"),
   ("(GPRPR)", "GPDPR"),
   ("GPDPR)", "GPDPR"),
   ("(GPDPDR)", "GPDPR"),
   ("(GDHuS", "GDHUS"),
   ("(GDHS)", "GDHUS"),
   ("GPSAS)", "GPSAS"),
   ("(GPSAS))", "GPSAS"),
   ("(GPsport)", "GPSPORTS"),
   ("gifa", "GIFA")]

/-- The canonical uppercase department codes (keys of the sheet map). -/
def departmentCodes : List String :=
  DEPARTMENT_CODE_TO_SHEET.map Prod.fst

/-- Embeds `extract_bracket_text`: the regex search
`\(([^)]+)\)\s*$` on the stripped user name.  On the trimmed string the
match, when it exists, ends at a final close parenthesis; its content is
the segment after the last earlier close parenthesis, from the first open
parenthesis of that segment, and must be nonempty.  The group is stripped
before being returned. -/
def extract_bracket_text (user_name : String) : Option String :=
  if user_name = "" then none
  else
    let cs := (py_strip user_name).toList
    match cs.getLast? with
    | some ')' =>
        let body := cs.dropLast
        let seg := ((body.reverse.takeWhile (fun c => c ≠ ')')).reverse)
        match seg.dropWhile (fun c => c ≠ '(') with
        | [] => none
        | _ :: content =>
            if content = [] then none
            else some (py_strip (String.mk content))
    | _ => none

/-- Embeds the regex `re.sub(r"[^A-Za-z0-9]", "", raw_text).upper()`. -/
def clean_text (t : String) : String :=
  py_upper (String.mk (t.toList.filter fun c => c.isAlphanum))

/-- Embeds `normalize_department_code`: falsy input is rejected, the
lower-cased and stripped text is looked up in the variant table, and
otherwise the cleaned upper-cased text must be a canonical code. -/
def normalize_department_code : Option String → Option String
  | none => none
  | some t =>
      if t = "" then none
      else
        match VARIANT_TO_CODE.lookup (py_strip (py_lower t)) with
        | some code => some code
        | none =>
            if clean_text t ∈ departmentCodes then some (clean_text t) else none

/-- Embeds `DEPARTMENT_CODE_TO_SHEET.get(code, "ungrouped")` of
`group_rows_by_department`. -/
def sheet_for (code : Option String) : String :=
  match code with
  | none => "ungrouped"
  | some c => (DEPARTMENT_CODE_TO_SHEET.lookup c).getD "ungrouped"

/-- The per-row classification performed by `group_rows_by_department`:
strip the `UserName` value, extract the trailing bracket text, normalize
it, and map the code to its sheet name (default `ungrouped`). -/
def classify_user_name (user_name : String) : String :=
  sheet_for (normalize_department_code (extract_bracket_text (py_strip user_name)))

/-! ### Reporting (src/defender_report/reporting.py) -/

/-- A `datetime.date`: year, month (1-12), day. -/
structure PyDate where
  year : Nat
  month : Nat
  day : Nat
deriving DecidableEq, Repr

/-- Full month name, as `strftime("%B")` renders it. -/
def month_full_name : Nat → String
  | 1 => "January"
  | 2 => "February"
  | 3 => "March"
  | 4 => "April"
  | 5 => "May"
  | 6 => "June"
  | 7 => "July"
  | 8 => "August"
  | 9 => "September"
  | 10 => "October"
  | 11 => "November"
  | 12 => "December"
  | _ => ""

/-- Two-digit zero padding for month and day fields. -/
def pad2 (n : Nat) : String :=
  if n < 10 then "0" ++ toString n else toString n

/-- Four-digit zero padding for the year field. -/
def pad4 (n : Nat) : String :=
  if n < 10 then "000" ++ toString n
  else if n < 100 then "00" ++ toString n
  else if n < 1000 then "0" ++ toString n
  else toString n

/-- Embeds `date.isoformat()`. -/
def iso_format (d : PyDate) : String :=
  pad4 d.year ++ "-" ++ pad2 d.month ++ "-" ++ pad2 d.day

/-- Embeds `fy_start` of `_nested_report_folder`. -/
def fy_start (report_date : PyDate) : Nat :=
  if 4 ≤ report_date.month then report_date.year else report_date.year - 1

/-- Embeds `financial_year` of `_nested_report_folder`. -/
def financial_year_label (report_date : PyDate) : String :=
  toString (fy_start report_date) ++ "-" ++ toString (fy_start report_date + 1)

/-- Embeds `quarter` of `_nested_report_folder` (the chained conditional). -/
def quarter_label (report_date : PyDate) : String :=
  if 4 ≤ report_date.month ∧ report_date.month ≤ 6 then "Q1"
  else if 7 ≤ report_date.month ∧ report_date.month ≤ 9 then "Q2"
  else if 10 ≤ report_date.month ∧ report_date.month ≤ 12 then "Q3"
  else "Q4"

/-- Embeds `_nested_report_folder` (the path is kept as its list of
components; `os.path.join` and `os.makedirs` are filesystem glue). -/
def nested_report_folder (root_directory department : String) (report_date : PyDate) :
    List String :=
  [root_directory, department, financial_year_label report_date, quarter_label report_date,
   month_full_name report_date.month, iso_format report_date]

/-- Modelled from the spec sentence for the financial-year start:
the report year when the month is at least 4, else the year before. -/
def spec_fy_start (d : PyDate) : Nat :=
  if d.month ≥ 4 then d.year else d.year - 1

/-- Modelled from the spec sentence for the financial-year label:
start, a dash, start plus one. -/
def spec_financial_year (d : PyDate) : String :=
  toString (spec_fy_start d) ++ "-" ++ toString (spec_fy_start d + 1)

/-- Modelled from the spec sentence for the fiscal quarter: months 4-6
are Q1, 7-9 are Q2, 10-12 are Q3, and 1-3 are Q4. -/
def spec_quarter (d : PyDate) : String :=
  if 4 ≤ d.month ∧ d.month ≤ 6 then "Q1"
  else if 7 ≤ d.month ∧ d.month ≤ 9 then "Q2"
  else if 10 ≤ d.month ∧ d.month ≤ 12 then "Q3"
  else if 1 ≤ d.month ∧ d.month ≤ 3 then "Q4"
  else ""

/-! ### Department-filter validation (src/defender_report/utils.py and
the inline filter of main.py lines 189-203) -/

/-- Embeds `validate_departments` (utils.py) and the identical inline
comprehension in `main`: the requested values that are neither a template
sheet name nor the sentinel string. -/
def validate_departments (user_departments valid_departments : List String) : List String :=
  user_departments.filter fun dept =>
    !(valid_departments.contains dept) && !(dept == "ungrouped")

/-- The orchestrator terminates with an error before any report is
written exactly when the invalid list is nonempty. -/
def main_rejects_departments (requested sheet_order : List String) : Bool :=
  !(validate_departments requested sheet_order).isEmpty

/-! ### Helper lemmas -/

/-- Association lookup on a table with distinct keys finds the stored value. -/
theorem lookup_of_nodup_mem (l : List (String × String)) (k v : String)
    (hnd : (l.map Prod.fst).Nodup) (hm : (k, v) ∈ l) :
    l.lookup k = some v := by
  induction l with
  | nil => simp at hm
  | cons p rest ih =>
      rw [List.map_cons, List.nodup_cons] at hnd
      rcases List.mem_cons.mp hm with h | h
      · cases p
        cases h
        simp [List.lookup]
      · have hne : ¬(k = p.fst) := by
          intro e
          exact hnd.1 (e ▸ List.mem_map_of_mem Prod.fst h)
        cases p with
        | mk a b =>
            have hbe : (k == a) = false := by
              simpa using hne
            simp [List.lookup, hbe, ih hnd.2 h]

/-- A successful association lookup returns one of the stored values. -/
theorem lookup_mem_values (l : List (String × String)) (k v : String)
    (h : l.lookup k = some v) : v ∈ l.map Prod.snd := by
  induction l with
  | nil => simp [List.lookup] at h
  | cons p rest ih =>
      cases p with
      | mk a b =>
          cases he : (k == a) with
          | true =>
              simp [List.lookup, he] at h
              subst h
              simp
          | false =>
              simp only [List.lookup, he] at h
              simp [ih h]

/-- Reading back the column just assigned returns the assigned cell. -/
theorem rowGet_setCol_self (row : Row) (k : String) (v : Cell) :
    rowGet (setCol row k v) k = some v := by
  induction row with
  | nil => simp [setCol, rowGet]
  | cons p rest ih =>
      cases p with
      | mk a w =>
          by_cases h : a = k
          · simp [setCol, h, rowGet]
          · simp [setCol, h, rowGet, ih]

/-- Assigning one column leaves every other column read unchanged. -/
theorem rowGet_setCol_ne (row : Row) (k k' : String) (v : Cell) (h : k' ≠ k) :
    rowGet (setCol row k v) k' = rowGet row k' := by
  have hk : ¬(k = k') := fun e => h e.symm
  induction row with
  | nil => simp [setCol, rowGet, hk]
  | cons p rest ih =>
      cases p with
      | mk a w =>
          by_cases ha : a = k
          · subst ha
            simp [setCol, rowGet, hk]
          · by_cases ha' : a = k'
            · subst ha'
              simp [setCol, rowGet, ha]
            · simp [setCol, rowGet, ha, ha', ih]

/-- Assigning an existing column keeps the column-name list unchanged. -/
theorem keys_setCol_of_mem (row : Row) (k : String) (v : Cell)
    (h : k ∈ row.map Prod.fst) :
    (setCol row k v).map Prod.fst = row.map Prod.fst := by
  induction row with
  | nil => simp at h
  | cons p rest ih =>
      cases p with
      | mk a w =>
          by_cases ha : a = k
          · simp [setCol, ha]
          · have hr : k ∈ rest.map Prod.fst := by
              rw [List.map_cons] at h
              rcases List.mem_cons.mp h with h' | h'
              · exact absurd h'.symm ha
              · exact h'
            simp [setCol, ha, ih hr]

/-- Assigning a fresh column appends its name at the end of the list. -/
theorem keys_setCol_of_not_mem (row : Row) (k : String) (v : Cell)
    (h : k ∉ row.map Prod.fst) :
    (setCol row k v).map Prod.fst = row.map Prod.fst ++ [k] := by
  induction row with
  | nil => simp [setCol]
  | cons p rest ih =>
      cases p with
      | mk a w =>
          have ha : a ≠ k := by
            intro e
            exact h (by rw [List.map_cons, e]; exact List.mem_cons_self _ _)
          have hr : k ∉ rest.map Prod.fst := by
            intro hk
            exact h (by rw [List.map_cons]; exact List.mem_cons_of_mem _ hk)
          simp [setCol, ha, ih hr]

/-- A name outside a list and different from the appended element stays
outside the extended list. -/
theorem not_mem_append_singleton {a b : String} (l : List String)
    (hl : a ∉ l) (hab : a ≠ b) : a ∉ l ++ [b] := by
  simp only [List.mem_append, List.mem_singleton]
  rintro (h | h)
  · exact hl h
  · exact hab h

/-- The classifier can only ever produce canonical codes: a successful
normalization lands in the key set of `DEPARTMENT_CODE_TO_SHEET`. -/
theorem normalize_range (raw : Option String) (c : String)
    (h : normalize_department_code raw = some c) : c ∈ departmentCodes := by
  match raw with
  | none => simp [normalize_department_code] at h
  | some t =>
      by_cases ht : t = ""
      · rw [ht] at h
        simp [normalize_department_code] at h
      · simp only [normalize_department_code, if_neg ht] at h
        cases hl : VARIANT_TO_CODE.lookup (py_strip (py_lower t)) with
        | some code =>
            rw [hl] at h
            simp only [Option.some.injEq] at h
            have hv : code ∈ VARIANT_TO_CODE.map Prod.snd := lookup_mem_values _ _ _ hl
            have hsub : ∀ v ∈ VARIANT_TO_CODE.map Prod.snd, v ∈ departmentCodes := by decide
            exact h ▸ hsub _ hv
        | none =>
            rw [hl] at h
            by_cases hc : clean_text t ∈ departmentCodes
            · rw [if_pos hc] at h
              simp only [Option.some.injEq] at h
              exact h ▸ hc
            · rw [if_neg hc] at h
              cases h

/-! ### Claim theorems -/

/-- C1: for every device record, the categorization performed by
`categorize_dataframe` (its row body `categorize_row`, whose assessment is
`assess_row` on the re-parsed timestamp with cutoff
`reference_date - threshold_days`) assigns exactly one of three outcomes,
comparing calendar dates only: a missing or unparseable
`LastReportedDateTime` yields OutOfDate/Critical with reason
"No check-in date"; a parsed date on or after the cutoff (boundary
inclusive) yields UpToDate/Fully Compliant with reason
"Device is up to date"; a parsed date strictly before the cutoff yields
OutOfDate/Not Compliant with reason "Missed check-in window".  The
embedded parser is total (`errors="coerce"`), so malformed date text
degrades to the first outcome instead of raising. -/
theorem categorize_assigns_exactly_one_outcome
    (reference_date threshold_days : Int) (p : Option Timestamp) :
    (p = none →
      assess_row (reference_date - threshold_days) p = noCheckInAssessment) ∧
    (∀ t : Timestamp, p = some t →
      (reference_date - threshold_days ≤ t.date →
        assess_row (reference_date - threshold_days) p = upToDateAssessment) ∧
      (t.date < reference_date - threshold_days →
        assess_row (reference_date - threshold_days) p = missedWindowAssessment)) ∧
    (∀ t1 t2 : Timestamp, t1.date = t2.date →
      assess_row (reference_date - threshold_days) (some t1) =
        assess_row (reference_date - threshold_days) (some t2)) ∧
    (assess_row (reference_date - threshold_days) p = noCheckInAssessment ∨
      assess_row (reference_date - threshold_days) p = upToDateAssessment ∨
      assess_row (reference_date - threshold_days) p = missedWindowAssessment) ∧
    (∀ parse : String → Option Timestamp, ∀ row : Row,
      rowGet (categorize_row parse (reference_date - threshold_days) row) "Status" =
        some (.str (row_assessment parse (reference_date - threshold_days) row).status) ∧
      rowGet (categorize_row parse (reference_date - threshold_days) row) "ComplianceLevel" =
        some (.str (row_assessment parse (reference_date - threshold_days) row).complianceLevel) ∧
      rowGet (categorize_row parse (reference_date - threshold_days) row) "ComplianceSeverity" =
        some (.str (row_assessment parse (reference_date - threshold_days) row).complianceSeverity) ∧
      rowGet (categorize_row parse (reference_date - threshold_days) row) "ComplianceReason" =
        some (.str (row_assessment parse (reference_date - threshold_days) row).complianceReason)) := by
  refine ⟨?_, ?_, ?_, ?_, ?_⟩
  · rintro rfl
    rfl
  · rintro t rfl
    constructor
    · intro h
      simp [assess_row, h]
    · intro h
      simp [assess_row, not_le.mpr h]
  · intro t1 t2 h
    simp [assess_row, h]
  · cases p with
    | none => exact Or.inl rfl
    | some t =>
        by_cases h : reference_date - threshold_days ≤ t.date
        · exact Or.inr (Or.inl (by simp [assess_row, h]))
        · exact Or.inr (Or.inr (by simp [assess_row, h]))
  · intro parse row
    unfold categorize_row
    refine ⟨?_, ?_, ?_, ?_⟩
    · rw [rowGet_setCol_ne _ _ _ _ (by decide), rowGet_setCol_ne _ _ _ _ (by decide),
        rowGet_setCol_ne _ _ _ _ (by decide), rowGet_setCol_self]
    · rw [rowGet_setCol_ne _ _ _ _ (by decide), rowGet_setCol_ne _ _ _ _ (by decide),
        rowGet_setCol_self]
    · rw [rowGet_setCol_ne _ _ _ _ (by decide), rowGet_setCol_self]
    · rw [rowGet_setCol_self]

/-- Witness for C1 at the inclusive boundary: reference date 10,
threshold 7 days, parsed calendar date exactly at the cutoff 3 (with a
nonzero time of day) is assessed up to date. -/
theorem categorize_assigns_exactly_one_outcome_witness :
    assess_row (10 - 7) (some ⟨3, 123⟩) = upToDateAssessment :=
  ((categorize_assigns_exactly_one_outcome 10 7 (some ⟨3, 123⟩)).2.1 ⟨3, 123⟩ rfl).1
    (by decide)

/-- C2 as stated is false: on a frame whose single row has a blank
`DeviceName` and `_ManagedBy` equal to `intune`, `tally_dataframe` reports
an intune count of 1 even though the valid-row mask is empty, so the
management-method counts are not restricted to the mask. -/
theorem tally_mask_counterexample :
    (tally_dataframe [⟨" ", some "intune", "UpToDate"⟩]).intuneCount = 1 ∧
    List.filter valid_row [TallyRow.mk " " (some "intune") "UpToDate"] = [] := by
  decide

/-- C2 amended: the device count and the two status counts of
`tally_dataframe` are computed only over rows whose `DeviceName` is
non-blank after trimming (removing the invalid rows does not change
them), while the co-managed and intune counts range over all rows of the
frame, and the legacy (SCCM) count is their difference
`deviceCount - coManaged - intuneCount`. -/
theorem tally_mask_usage (rows : List TallyRow) :
    (tally_dataframe (rows.filter valid_row)).deviceCount =
      (tally_dataframe rows).deviceCount ∧
    (tally_dataframe (rows.filter valid_row)).upToDate =
      (tally_dataframe rows).upToDate ∧
    (tally_dataframe (rows.filter valid_row)).outOfDate =
      (tally_dataframe rows).outOfDate ∧
    (tally_dataframe rows).coManaged =
      rows.countP (fun r => is_co_managed r.managedBy) ∧
    (tally_dataframe rows).intuneCount =
      rows.countP (fun r => is_intune r.managedBy) ∧
    (tally_dataframe rows).sccmManaged =
      ((tally_dataframe rows).deviceCount : Int) - (tally_dataframe rows).coManaged -
        (tally_dataframe rows).intuneCount := by
  refine ⟨?_, ?_, ?_, rfl, rfl, rfl⟩
  · simp only [tally_dataframe, List.countP_filter]
    exact List.countP_congr fun r _ => by cases h : valid_row r <;> simp [h]
  · simp only [tally_dataframe, List.countP_filter]
    exact List.countP_congr fun r _ => by cases h : valid_row r <;> simp [h]
  · simp only [tally_dataframe, List.countP_filter]
    exact List.countP_congr fun r _ => by cases h : valid_row r <;> simp [h]

/-- C3 as stated is false: the entry `("DID", "GPDID")` is in the variant
alias table, the text `did` equals that key under case-insensitive
trimmed comparison, yet it normalizes to `none` (and so would classify as
ungrouped), not to GPDID, because the lookup lower-cases the input while
the stored key is upper-case. -/
theorem alias_lookup_counterexample :
    ("DID", "GPDID") ∈ VARIANT_TO_CODE ∧
    py_strip (py_lower "did") = py_strip (py_lower "DID") ∧
    normalize_department_code (some "did") = none ∧
    normalize_department_code (some "DID") = none := by
  decide

/-- C3 amended: alias lookup lower-cases and trims the extracted text and
then compares it to the alias-table keys verbatim, so exactly the entries
whose key is itself lower-case and trimmed are matched case-insensitively;
for every such entry the alias match takes precedence over cleaned-text
matching (the conclusion holds unconditionally, e.g. `bgh` normalizes to
GPHEALTH although the cleaned text BGH matches no canonical code).
Entries whose key contains an upper-case letter are unreachable. -/
theorem alias_lookup_lowercase_keys (k v t : String)
    (hmem : (k, v) ∈ VARIANT_TO_CODE)
    (_hk : py_strip (py_lower k) = k)
    (ht : py_strip (py_lower t) = k) :
    normalize_department_code (some t) = some v := by
  have hk0 : k ≠ "" := by
    have hall : ∀ p ∈ VARIANT_TO_CODE, ¬(p.fst = "") := by decide
    exact fun e => hall (k, v) hmem e
  have hne : t ≠ "" := by
    intro e
    apply hk0
    rw [← ht, e]
    rfl
  have hnd : (VARIANT_TO_CODE.map Prod.fst).Nodup := by decide
  have hlk : VARIANT_TO_CODE.lookup (py_strip (py_lower t)) = some v := by
    rw [ht]
    exact lookup_of_nodup_mem _ _ _ hnd hmem
  simp only [normalize_department_code, if_neg hne, hlk]

/-- Witness for C3 amended: the lower-case alias key `bgh` is matched by
the differently-cased, untrimmed text ` BGH ` and resolves to GPHEALTH. -/
theorem alias_lookup_lowercase_keys_witness :
    normalize_department_code (some " BGH ") = some "GPHEALTH" :=
  alias_lookup_lowercase_keys "bgh" "GPHEALTH" " BGH " (by decide) (by decide) (by decide)

/-- C4 as stated is false: the canonical code table has 15 entries, not 14. -/
theorem taxonomy_counterexample : ¬ DEPARTMENT_CODE_TO_SHEET.length = 14 := by
  decide

/-- C4 amended: the canonical department code set is closed and fixed
with exactly 15 upper-case codes, each mapped one-to-one to a distinct
lower-case sheet identifier (its own lower-casing), and the classifier
rejects every code outside this set: a successful normalization always
lands in the set (anything else becomes the sentinel ungrouped). -/
theorem taxonomy_closed_fifteen :
    DEPARTMENT_CODE_TO_SHEET.length = 15 ∧
    (DEPARTMENT_CODE_TO_SHEET.map Prod.fst).Nodup ∧
    (DEPARTMENT_CODE_TO_SHEET.map Prod.snd).Nodup ∧
    (∀ p ∈ DEPARTMENT_CODE_TO_SHEET, p.snd = py_lower p.fst) ∧
    (∀ raw : Option String, ∀ c : String,
      normalize_department_code raw = some c → c ∈ departmentCodes) := by
  exact ⟨by decide, by decide, by decide, by decide, normalize_range⟩

/-- Witness for C4 amended: the code GPHEALTH, produced by normalizing
the alias `bgh`, is in the canonical code set. -/
theorem taxonomy_closed_fifteen_witness : "GPHEALTH" ∈ departmentCodes :=
  taxonomy_closed_fifteen.2.2.2.2 (some "bgh") "GPHEALTH" (by decide)

/-- C5: classification of a `UserName` into a group uses the text inside
the last parenthesized group at the end of the name, with trailing
whitespace ignored: both `Jane Doe (GPEDU)` and `Jane Doe (gpedu)`
classify to `gpedu`; a name with no trailing parenthetical classifies to
`ungrouped`; a trailing parenthetical matching no canonical code and no
alias classifies to `ungrouped`. -/
theorem classify_examples :
    classify_user_name "Jane Doe (GPEDU)" = "gpedu" ∧
    classify_user_name "Jane Doe (gpedu)" = "gpedu" ∧
    classify_user_name "Jane Doe" = "ungrouped" ∧
    classify_user_name "Jane Doe (XXXX)" = "ungrouped" ∧
    classify_user_name "Jane Doe (GPHEALTH) (GPEDU)" = "gpedu" ∧
    classify_user_name "Jane Doe (GPEDU)   " = "gpedu" := by
  decide

/-- C6: for every report date with a valid month, the nested report
folder path is root, then department, then the financial-year label
(start year is the report year when the month is at least 4, else the
year before, label start-dash-next), then the quarter (Q1 for months 4-6,
Q2 for 7-9, Q3 for 10-12, Q4 for 1-3), then the full month name, then the
ISO date. -/
theorem nested_folder_spec (root dept : String) (d : PyDate)
    (h1 : 1 ≤ d.month) (h2 : d.month ≤ 12) :
    nested_report_folder root dept d =
      [root, dept, spec_financial_year d, spec_quarter d,
       month_full_name d.month, iso_format d] := by
  have hfy : financial_year_label d = spec_financial_year d := by
    unfold financial_year_label spec_financial_year fy_start spec_fy_start
    rfl
  have hq : quarter_label d = spec_quarter d := by
    unfold quarter_label spec_quarter
    split_ifs <;> first | rfl | omega
  simp [nested_report_folder, hfy, hq]

/-- Witness for C6 at the spec's example date 2024-06-15: financial year
2024-2025, quarter Q1, month June, date folder 2024-06-15. -/
theorem nested_folder_spec_witness :
    nested_report_folder "reports" "gpedu" ⟨2024, 6, 15⟩ =
      ["reports", "gpedu", "2024-2025", "Q1", "June", "2024-06-15"] := by
  have h := nested_folder_spec "reports" "gpedu" ⟨2024, 6, 15⟩ (by decide) (by decide)
  exact h.trans (by decide)

/-- C7: the compliance ratio of `tally_dataframe` equals
upToDate / deviceCount when the device count is nonzero and equals 0 when
it is 0; in particular an input whose every `DeviceName` is blank after
trimming yields deviceCount 0 and compliance 0 (the guard avoids the
division by zero, which in this embedding of rationals is total anyway). -/
theorem tally_compliance_ratio (rows : List TallyRow) :
    ((tally_dataframe rows).deviceCount = 0 → (tally_dataframe rows).compliance = 0) ∧
    ((tally_dataframe rows).deviceCount ≠ 0 →
      (tally_dataframe rows).compliance =
        ((tally_dataframe rows).upToDate : ℚ) / ((tally_dataframe rows).deviceCount : ℚ)) ∧
    ((∀ r ∈ rows, py_strip r.deviceName = "") →
      (tally_dataframe rows).deviceCount = 0 ∧ (tally_dataframe rows).compliance = 0) := by
  refine ⟨?_, ?_, ?_⟩
  · intro h
    simp only [tally_dataframe] at h ⊢
    rw [if_pos h]
  · intro h
    simp only [tally_dataframe] at h ⊢
    rw [if_neg h]
  · intro hall
    have hz : rows.countP valid_row = 0 := by
      rw [List.countP_eq_zero]
      intro r hr
      simp [valid_row, hall r hr]
    constructor
    · simp only [tally_dataframe]
      exact hz
    · simp only [tally_dataframe]
      rw [if_pos hz]

/-- Witness for C7: a one-row frame whose device name is all blank tallies
to device count 0 and compliance 0 (and no exception: the function is
total). -/
theorem tally_compliance_ratio_witness :
    (tally_dataframe [⟨"  ", some "intune", "UpToDate"⟩]).deviceCount = 0 ∧
    (tally_dataframe [⟨"  ", some "intune", "UpToDate"⟩]).compliance = 0 :=
  (tally_compliance_ratio [⟨"  ", some "intune", "UpToDate"⟩]).2.2 (by decide)

/-- C8: department classification is pure (a function of its input: equal
inputs give equal outputs) and idempotent: whenever some raw text
normalizes to a canonical code, normalizing that code again returns the
same code. -/
theorem classification_idempotent :
    (∀ a b : String, a = b → classify_user_name a = classify_user_name b) ∧
    (∀ raw c : String, normalize_department_code (some raw) = some c →
      normalize_department_code (some c) = some c) := by
  constructor
  · intro a b h
    rw [h]
  · intro raw c h
    have hc := normalize_range (some raw) c h
    have hfix : ∀ x ∈ departmentCodes, normalize_department_code (some x) = some x := by
      decide
    exact hfix c hc

/-- Witness for C8: the alias `bgh` normalizes to GPHEALTH, and a second
normalization pass on GPHEALTH is the identity. -/
theorem classification_idempotent_witness :
    normalize_department_code (some "GPHEALTH") = some "GPHEALTH" :=
  classification_idempotent.2 "bgh" "GPHEALTH" (by decide)

/-- C9: `categorize_dataframe` maps its row body over the frame without
touching the input (a pure function of a copy); for any row that carries
a `LastReportedDateTime` column and none of the four assessment columns,
the output row keeps every other column unchanged, holds the re-parsed
datetime (NaT when unparseable) in `LastReportedDateTime` at its original
position, and adds exactly the four columns `Status`, `ComplianceLevel`,
`ComplianceSeverity`, `ComplianceReason` at the end. -/
theorem categorize_frame_effect (parse : String → Option Timestamp)
    (reference_date threshold_days : Int) (row : Row)
    (hL : "LastReportedDateTime" ∈ row.map Prod.fst)
    (hS : "Status" ∉ row.map Prod.fst)
    (hCL : "ComplianceLevel" ∉ row.map Prod.fst)
    (hCS : "ComplianceSeverity" ∉ row.map Prod.fst)
    (hCR : "ComplianceReason" ∉ row.map Prod.fst) :
    (∀ rows : List Row,
      categorize_dataframe parse reference_date threshold_days rows =
        rows.map (categorize_row parse (reference_date - threshold_days))) ∧
    (categorize_row parse (reference_date - threshold_days) row).map Prod.fst =
      row.map Prod.fst ++
        ["Status", "ComplianceLevel", "ComplianceSeverity", "ComplianceReason"] ∧
    (∀ k : String, k ≠ "LastReportedDateTime" → k ≠ "Status" → k ≠ "ComplianceLevel" →
      k ≠ "ComplianceSeverity" → k ≠ "ComplianceReason" →
      rowGet (categorize_row parse (reference_date - threshold_days) row) k = rowGet row k) ∧
    rowGet (categorize_row parse (reference_date - threshold_days) row)
      "LastReportedDateTime" = some (parsed_last_reported parse row) := by
  refine ⟨fun rows => rfl, ?_, ?_, ?_⟩
  · unfold categorize_row
    generalize Cell.str (row_assessment parse (reference_date - threshold_days) row).status = v1
    generalize Cell.str
      (row_assessment parse (reference_date - threshold_days) row).complianceLevel = v2
    generalize Cell.str
      (row_assessment parse (reference_date - threshold_days) row).complianceSeverity = v3
    generalize Cell.str
      (row_assessment parse (reference_date - threshold_days) row).complianceReason = v4
    generalize parsed_last_reported parse row = p0
    have k0 : (setCol row "LastReportedDateTime" p0).map Prod.fst = row.map Prod.fst :=
      keys_setCol_of_mem _ _ _ hL
    have k1 : (setCol (setCol row "LastReportedDateTime" p0) "Status" v1).map Prod.fst =
        row.map Prod.fst ++ ["Status"] := by
      rw [keys_setCol_of_not_mem _ _ _ (by rw [k0]; exact hS), k0]
    have k2 : (setCol (setCol (setCol row "LastReportedDateTime" p0) "Status" v1)
        "ComplianceLevel" v2).map Prod.fst =
        (row.map Prod.fst ++ ["Status"]) ++ ["ComplianceLevel"] := by
      rw [keys_setCol_of_not_mem _ _ _
        (by rw [k1]; exact not_mem_append_singleton _ hCL (by decide)), k1]
    have k3 : (setCol (setCol (setCol (setCol row "LastReportedDateTime" p0) "Status" v1)
        "ComplianceLevel" v2) "ComplianceSeverity" v3).map Prod.fst =
        ((row.map Prod.fst ++ ["Status"]) ++ ["ComplianceLevel"]) ++ ["ComplianceSeverity"] := by
      rw [keys_setCol_of_not_mem _ _ _
        (by
          rw [k2]
          exact not_mem_append_singleton _
            (not_mem_append_singleton _ hCS (by decide)) (by decide)), k2]
    have k4 : (setCol (setCol (setCol (setCol (setCol row "LastReportedDateTime" p0)
        "Status" v1) "ComplianceLevel" v2) "ComplianceSeverity" v3)
        "ComplianceReason" v4).map Prod.fst =
        (((row.map Prod.fst ++ ["Status"]) ++ ["ComplianceLevel"]) ++ ["ComplianceSeverity"]) ++
          ["ComplianceReason"] := by
      rw [keys_setCol_of_not_mem _ _ _
        (by
          rw [k3]
          exact not_mem_append_singleton _
            (not_mem_append_singleton _
              (not_mem_append_singleton _ hCR (by decide)) (by decide)) (by decide)), k3]
    rw [k4]
    simp
  · intro k hkL hkS hkCL hkCS hkCR
    unfold categorize_row
    rw [rowGet_setCol_ne _ _ _ _ hkCR, rowGet_setCol_ne _ _ _ _ hkCS,
      rowGet_setCol_ne _ _ _ _ hkCL, rowGet_setCol_ne _ _ _ _ hkS,
      rowGet_setCol_ne _ _ _ _ hkL]
  · unfold categorize_row
    rw [rowGet_setCol_ne _ _ _ _ (by decide), rowGet_setCol_ne _ _ _ _ (by decide),
      rowGet_setCol_ne _ _ _ _ (by decide), rowGet_setCol_ne _ _ _ _ (by decide),
      rowGet_setCol_self]

/-- Witness for C9 on a concrete two-column row with an unparseable
timestamp: the output column list is the input list plus the four
assessment columns, in order. -/
theorem categorize_frame_effect_witness :
    (categorize_row (fun _ => none) (10 - 7)
      [("DeviceName", Cell.str "PC1"), ("LastReportedDateTime", Cell.str "bad")]).map
        Prod.fst =
      ["DeviceName", "LastReportedDateTime", "Status", "ComplianceLevel",
       "ComplianceSeverity", "ComplianceReason"] := by
  have h := (categorize_frame_effect (fun _ => none) 10 7
    [("DeviceName", Cell.str "PC1"), ("LastReportedDateTime", Cell.str "bad")]
    (by decide) (by decide) (by decide) (by decide) (by decide)).2.1
  exact h.trans (by decide)

/-- C10: the orchestrator's department filter accepts a requested value
exactly when it appears among the template workbook's sheet names or
equals the string ungrouped, and the whole run is terminated with an
error before reports are written exactly when some requested value fails
that test; validation is against the given sheet-name list, whatever it
contains, not against the canonical code table. -/
theorem department_filter_accepts_iff (requested sheet_order : List String) :
    (main_rejects_departments requested sheet_order = false ↔
      ∀ d ∈ requested, d ∈ sheet_order ∨ d = "ungrouped") ∧
    (∀ d ∈ requested,
      (d ∉ validate_departments requested sheet_order ↔
        d ∈ sheet_order ∨ d = "ungrouped")) := by
  constructor
  · simp only [main_rejects_departments, validate_departments, Bool.not_eq_false',
      List.isEmpty_iff, List.filter_eq_nil_iff, Bool.and_eq_true, Bool.not_eq_true',
      not_and_or, Bool.not_eq_false]
    constructor
    · intro h d hd
      rcases h d hd with h' | h'
      · exact Or.inl (by simpa using h')
      · exact Or.inr (by simpa using h')
    · intro h d hd
      rcases h d hd with h' | h'
      · exact Or.inl (by simpa using h')
      · exact Or.inr (by simpa using h')
  · intro d hd
    simp only [validate_departments, List.mem_filter, Bool.and_eq_true, Bool.not_eq_true',
      not_and_or]
    constructor
    · intro h
      rcases h with h' | h'
      · exact absurd hd h'
      · rcases h' with h'' | h''
        · exact Or.inl (by simpa using h'')
        · exact Or.inr (by simpa using h'')
    · intro h
      rcases h with h' | h'
      · exact Or.inr (Or.inl (by simpa using h'))
      · exact Or.inr (Or.inr (by simpa using h'))

/-- Witness for C10: the request list containing ungrouped and a
non-canonical template sheet name is accepted in full (no fatal error),
because validation is against the sheet-name list. -/
theorem department_filter_accepts_iff_witness :
    main_rejects_departments ["ungrouped", "custom"] ["custom", "gpedu"] = false :=
  (department_filter_accepts_iff ["ungrouped", "custom"] ["custom", "gpedu"]).1.mpr
    (by decide)

end DefenderReport
